import Mathlib

/-!
# Verification of the PimaxXR session lifecycle (src/pimax-openxr/session.cpp)

This file gives a shallow embedding of the session-lifecycle portion of the
Pimax OpenXR runtime (`OpenXrRuntime::xrCreateSession`, `xrDestroySession`,
`xrBeginSession`, `xrEndSession`, `xrRequestExitSession` and
`refreshSettings`) and proves the spec's claims about it.

Modelling conventions:
* The `m_*` member fields of `OpenXrRuntime` touched by these functions form
  the `RuntimeState` structure.
* External collaborators (extension-enable flags, the four backend
  initializers, reference-space / swapchain / space destruction entry points,
  the configuration store, the PVR clock) are an `Env` of oracle functions;
  the spec treats them as out-of-scope collaborators.
* Each operation is a pure function from `Env`, `RuntimeState` and arguments
  to a result and a new state.  C++ exceptions raised by `CHECK_XRCMD`
  (and caught/rethrown in `xrCreateSession`) are the `CallResult.thrown`
  alternative; plain `return code;` is `CallResult.ret`.
* `xrCreateSession` additionally reports the list of backend initializers it
  invoked, in order, and `xrDestroySession` reports the ordered trace of
  destruction/cleanup calls it made; both are direct instrumentations of the
  calls present in the source, needed to state the dispatch/ordering claims.
* Floating-point values (timestamps, the settings arithmetic of
  `refreshSettings`) are modelled as exact rationals; the C cast
  `(uint64_t)` of a non-negative value is `Int.toNat ∘ Int.floor`.
-/

/-- Result codes returned by the session lifecycle functions
(the subset of `XrResult` that appears in session.cpp, plus
`XR_ERROR_RUNTIME_FAILURE` as a representative failure code that a
collaborator may produce). `XR_SUCCESS` is the only non-failure code here. -/
inductive XrResult where
  | XR_SUCCESS
  | XR_ERROR_VALIDATION_FAILURE
  | XR_ERROR_HANDLE_INVALID
  | XR_ERROR_SYSTEM_INVALID
  | XR_ERROR_GRAPHICS_REQUIREMENTS_CALL_MISSING
  | XR_ERROR_LIMIT_REACHED
  | XR_ERROR_GRAPHICS_DEVICE_INVALID
  | XR_ERROR_SESSION_NOT_READY
  | XR_ERROR_SESSION_NOT_STOPPING
  | XR_ERROR_SESSION_NOT_RUNNING
  | XR_ERROR_VIEW_CONFIGURATION_TYPE_UNSUPPORTED
  | XR_ERROR_RUNTIME_FAILURE
  deriving DecidableEq, Repr

/-- The `XR_FAILED` macro: all codes of session.cpp other than `XR_SUCCESS`
are (negative) failure codes. -/
def XR_FAILED (r : XrResult) : Bool := r != XrResult.XR_SUCCESS

/-- Structure tags (`XrStructureType`) relevant to session.cpp;
`XR_TYPE_UNKNOWN` stands for any other tag value. -/
inductive XrStructureType where
  | XR_TYPE_SESSION_CREATE_INFO
  | XR_TYPE_SESSION_BEGIN_INFO
  | XR_TYPE_GRAPHICS_BINDING_D3D11_KHR
  | XR_TYPE_GRAPHICS_BINDING_D3D12_KHR
  | XR_TYPE_GRAPHICS_BINDING_VULKAN_KHR
  | XR_TYPE_GRAPHICS_BINDING_OPENGL_WIN32_KHR
  | XR_TYPE_UNKNOWN
  deriving DecidableEq, Repr

/-- Session states (`XrSessionState`); `READY`, `VISIBLE` and `FOCUSED` are
set by code outside this file but are read by it. -/
inductive XrSessionState where
  | XR_SESSION_STATE_UNKNOWN
  | XR_SESSION_STATE_IDLE
  | XR_SESSION_STATE_READY
  | XR_SESSION_STATE_SYNCHRONIZED
  | XR_SESSION_STATE_VISIBLE
  | XR_SESSION_STATE_FOCUSED
  | XR_SESSION_STATE_STOPPING
  deriving DecidableEq, Repr

/-- View-configuration types; only `PRIMARY_STEREO` is supported. -/
inductive XrViewConfigurationType where
  | XR_VIEW_CONFIGURATION_TYPE_PRIMARY_STEREO
  | XR_VIEW_CONFIGURATION_TYPE_PRIMARY_MONO
  deriving DecidableEq, Repr

/-- Reference-space types used by `xrCreateSession`. -/
inductive XrReferenceSpaceType where
  | XR_REFERENCE_SPACE_TYPE_LOCAL
  | XR_REFERENCE_SPACE_TYPE_VIEW
  deriving DecidableEq, Repr

/-- The four graphics backends dispatched to by `xrCreateSession`. -/
inductive Backend where
  | d3d11
  | d3d12
  | vulkan
  | opengl
  deriving DecidableEq, Repr

/-- One entry of the `next` extension chain of `XrSessionCreateInfo`
(`XrBaseInStructure`): a type tag plus an opaque payload identifier standing
for the backend-specific binding data handed to the initializer. -/
structure ChainEntry where
  type : XrStructureType
  payload : Nat
  deriving DecidableEq, Repr

/-- `XrSessionCreateInfo`: structure tag, system id, create flags and the
`next` extension chain, modelled as the ordered list of chained entries. -/
structure XrSessionCreateInfo where
  type : XrStructureType
  systemId : Nat
  createFlags : Nat
  next : List ChainEntry
  deriving DecidableEq, Repr

/-- `XrSessionBeginInfo`: structure tag and primary view-configuration
type. -/
structure XrSessionBeginInfo where
  type : XrStructureType
  primaryViewConfigurationType : XrViewConfigurationType
  deriving DecidableEq, Repr

/-- The forced-interaction-profile selector values of `refreshSettings`. -/
inductive ForcedInteractionProfile where
  | OculusTouchController
  | MicrosoftMotionController
  deriving DecidableEq, Repr

/-- The `m_*` member state of `OpenXrRuntime` read or written by
session.cpp.  Handles (`XrSpace`, swapchains) are `Nat`, with
`XR_NULL_HANDLE = 0`; timestamps (seconds, `double` in the source) are
exact rationals. -/
structure RuntimeState where
  m_instanceCreated : Bool
  m_systemCreated : Bool
  m_graphicsRequirementQueried : Bool
  m_sessionCreated : Bool
  m_sessionState : XrSessionState
  m_sessionStateDirty : Bool
  m_sessionStateEventTime : Rat
  m_sessionExiting : Bool
  m_sessionStartTime : Rat
  m_sessionTotalFrameCount : Nat
  m_originSpace : Nat
  m_viewSpace : Nat
  m_swapchains : List Nat
  m_frameWaited : Bool
  m_frameBegun : Bool
  m_lastFrameWaitedTime : Option Rat
  m_frameTimes : List Rat
  m_isControllerActive : Bool × Bool
  m_activeActionSets : List Nat
  m_validActionSets : List Nat
  m_useParallelProjection : Bool
  m_frameDuration : Rat
  m_joystickDeadzone : Rat
  m_swapGripAimPoses : Bool
  m_forcedInteractionProfile : Option ForcedInteractionProfile
  m_gpuFrameTimeOverrideOffsetUs : Nat
  m_gpuFrameTimeOverrideUs : Nat
  m_gpuFrameTimeFilterLength : Nat
  deriving DecidableEq, Repr

/-- The external collaborators of session.cpp: per-extension enable flags
recorded at instance creation, the four backend initializers, the
reference-space / swapchain / space entry points called re-entrantly, the
registry-backed configuration store (`getSetting`), the PVR integer
configuration reader and the PVR clock.  Each oracle returns the result
code of the corresponding call; `xrCreateReferenceSpace` also returns the
created handle. -/
structure Env where
  has_XR_KHR_D3D11_enable : Bool
  has_XR_KHR_D3D12_enable : Bool
  has_XR_KHR_vulkan_enable : Bool
  has_XR_KHR_vulkan_enable2 : Bool
  has_XR_KHR_opengl_enable : Bool
  initializeD3D11 : ChainEntry → XrResult
  initializeD3D12 : ChainEntry → XrResult
  initializeVulkan : ChainEntry → XrResult
  initializeOpenGL : ChainEntry → XrResult
  xrCreateReferenceSpace : XrReferenceSpaceType → XrResult × Nat
  xrDestroySwapchain : Nat → XrResult
  xrDestroySpace : Nat → XrResult
  getSetting : String → Option Nat
  pvr_getIntConfig : String → Int → Int
  pvr_getTimeSeconds : Rat

/-- How a lifecycle call ends: a plain `return code;` or a C++ exception
propagating out (the `CHECK_XRCMD` throw path), carrying the failing
collaborator result. -/
inductive CallResult where
  | ret (r : XrResult)
  | thrown (r : XrResult)
  deriving DecidableEq, Repr

/-- One entry of `xrDestroySession`'s trace of teardown calls. -/
inductive DestroyEvent where
  | swapchain (handle : Nat)
  | space (handle : Nat)
  | cleanup (backend : Backend)
  deriving DecidableEq, Repr

/-- `refreshSettings`: derive the runtime-tunable parameters from the
configuration store (session.cpp lines 310-340).  Missing values fall back
to the defaults written in the source (`value_or`).  The float expression
for the GPU frame-time override is modelled exactly over the rationals,
with the final `(uint64_t)` cast as floor. -/
def refreshSettings (env : Env) (s : RuntimeState) : RuntimeState :=
  { s with
    m_joystickDeadzone := (((env.getSetting "joystick_deadzone").getD 2 : Rat)) / 100
    m_swapGripAimPoses := (env.getSetting "swap_grip_aim_poses").getD 0 != 0
    m_forcedInteractionProfile :=
      if (env.getSetting "force_interaction_profile").getD 0 = 1 then
        some ForcedInteractionProfile.OculusTouchController
      else if (env.getSetting "force_interaction_profile").getD 0 = 2 then
        some ForcedInteractionProfile.MicrosoftMotionController
      else
        none
    m_gpuFrameTimeOverrideOffsetUs := (env.getSetting "frame_time_override_offset").getD 0
    m_gpuFrameTimeOverrideUs :=
      (⌊(((env.getSetting "frame_time_override_multiplier").getD 0 : Rat)) * 10 *
          s.m_frameDuration * 1000⌋).toNat
    m_gpuFrameTimeFilterLength := (env.getSetting "frame_time_filter_length").getD 5 }

/-- Eligibility of one chain entry, read off the `if`/`else if` conditions of
the scan loop (session.cpp lines 70, 81, 92, 104): the entry's tag must be a
recognized graphics-binding tag whose capability extension is enabled. -/
def eligibleBinding (env : Env) (entry : ChainEntry) : Option Backend :=
  if env.has_XR_KHR_D3D11_enable ∧
      entry.type = XrStructureType.XR_TYPE_GRAPHICS_BINDING_D3D11_KHR then
    some Backend.d3d11
  else if env.has_XR_KHR_D3D12_enable ∧
      entry.type = XrStructureType.XR_TYPE_GRAPHICS_BINDING_D3D12_KHR then
    some Backend.d3d12
  else if (env.has_XR_KHR_vulkan_enable ∨ env.has_XR_KHR_vulkan_enable2) ∧
      entry.type = XrStructureType.XR_TYPE_GRAPHICS_BINDING_VULKAN_KHR then
    some Backend.vulkan
  else if env.has_XR_KHR_opengl_enable ∧
      entry.type = XrStructureType.XR_TYPE_GRAPHICS_BINDING_OPENGL_WIN32_KHR then
    some Backend.opengl
  else
    none

/-- The `while (entry)` scan of the extension chain (session.cpp lines
69-118): walk the chain in order and stop at the first eligible entry,
returning the backend kind and the entry to hand to its initializer. -/
def scanGraphicsBindings (env : Env) : List ChainEntry → Option (Backend × ChainEntry)
  | [] => none
  | entry :: rest =>
    match eligibleBinding env entry with
    | some b => some (b, entry)
    | none => scanGraphicsBindings env rest

/-- Dispatch to the backend initializer chosen by the scan. -/
def initializeBackend (env : Env) : Backend → ChainEntry → XrResult
  | Backend.d3d11 => env.initializeD3D11
  | Backend.d3d12 => env.initializeD3D12
  | Backend.vulkan => env.initializeVulkan
  | Backend.opengl => env.initializeOpenGL

/-- Output of `xrCreateSession`: how the call ended, the new runtime state,
the ordered list of backend initializers invoked, and the value written to
the `XrSession*` out-parameter (`none` when the call failed before writing
it). -/
structure CreateOutput where
  result : CallResult
  state : RuntimeState
  invoked : List Backend
  sessionOut : Option Nat
  deriving DecidableEq, Repr

/-- `OpenXrRuntime::xrCreateSession` (session.cpp lines 36-201).
Precondition checks in source order; then the graphics-binding scan and
backend initialization; then configuration (`recenter_on_startup` recenter
command and telemetry are external side effects with no modelled state),
`refreshSettings`, session bookkeeping reset, and the two reference-space
creations whose `CHECK_XRCMD` failure is caught, clears
`m_sessionCreated`, and is rethrown. -/
def xrCreateSession (env : Env) (s : RuntimeState) (instanceHandle : Nat)
    (createInfo : XrSessionCreateInfo) : CreateOutput :=
  if createInfo.type ≠ XrStructureType.XR_TYPE_SESSION_CREATE_INFO then
    ⟨CallResult.ret XrResult.XR_ERROR_VALIDATION_FAILURE, s, [], none⟩
  else if s.m_instanceCreated = false ∨ instanceHandle ≠ 1 then
    ⟨CallResult.ret XrResult.XR_ERROR_HANDLE_INVALID, s, [], none⟩
  else if s.m_systemCreated = false ∨ createInfo.systemId ≠ 1 then
    ⟨CallResult.ret XrResult.XR_ERROR_SYSTEM_INVALID, s, [], none⟩
  else if s.m_graphicsRequirementQueried = false then
    ⟨CallResult.ret XrResult.XR_ERROR_GRAPHICS_REQUIREMENTS_CALL_MISSING, s, [], none⟩
  else if s.m_sessionCreated = true then
    ⟨CallResult.ret XrResult.XR_ERROR_LIMIT_REACHED, s, [], none⟩
  else
    match scanGraphicsBindings env createInfo.next with
    | none => ⟨CallResult.ret XrResult.XR_ERROR_GRAPHICS_DEVICE_INVALID, s, [], none⟩
    | some (b, entry) =>
      let result := initializeBackend env b entry
      if XR_FAILED result then
        ⟨CallResult.ret result, s, [b], none⟩
      else
        let s1 := { s with
          m_useParallelProjection := env.pvr_getIntConfig "steamvr_use_native_fov" 0 = 0 }
        let s2 := refreshSettings env s1
        let s3 := { s2 with
          m_sessionCreated := true
          m_sessionState := XrSessionState.XR_SESSION_STATE_IDLE
          m_sessionStateDirty := true
          m_sessionStateEventTime := env.pvr_getTimeSeconds
          m_frameWaited := false
          m_frameBegun := false
          m_lastFrameWaitedTime := none
          m_frameTimes := []
          m_isControllerActive := (false, false)
          m_activeActionSets := []
          m_validActionSets := []
          m_sessionStartTime := env.pvr_getTimeSeconds
          m_sessionTotalFrameCount := 0 }
        let originResult := env.xrCreateReferenceSpace
          XrReferenceSpaceType.XR_REFERENCE_SPACE_TYPE_LOCAL
        if XR_FAILED originResult.1 then
          ⟨CallResult.thrown originResult.1, { s3 with m_sessionCreated := false }, [b], none⟩
        else
          let s4 := { s3 with m_originSpace := originResult.2 }
          let viewResult := env.xrCreateReferenceSpace
            XrReferenceSpaceType.XR_REFERENCE_SPACE_TYPE_VIEW
          if XR_FAILED viewResult.1 then
            ⟨CallResult.thrown viewResult.1, { s4 with m_sessionCreated := false }, [b], none⟩
          else
            ⟨CallResult.ret XrResult.XR_SUCCESS,
              { s4 with m_viewSpace := viewResult.2 }, [b], some 1⟩

/-- Output of `xrDestroySession`: how the call ended, the new state, and
the ordered trace of teardown calls (swapchain destructions, space
destructions, backend cleanups) it performed. -/
structure DestroyOutput where
  result : CallResult
  state : RuntimeState
  events : List DestroyEvent
  deriving DecidableEq, Repr

/-- The `while (m_swapchains.size())` drain loop of `xrDestroySession`
(session.cpp lines 214-216): destroy the first swapchain, which removes it
from the collection on success; a `CHECK_XRCMD` failure aborts the loop,
leaving the remaining swapchains.  Returns the failure (if any), the
remaining swapchains, and the trace of destruction calls made. -/
def drainSwapchains (env : Env) : List Nat → Option XrResult × List Nat × List DestroyEvent
  | [] => (none, [], [])
  | h :: rest =>
    let r := env.xrDestroySwapchain h
    if XR_FAILED r then
      (some r, h :: rest, [DestroyEvent.swapchain h])
    else
      let out := drainSwapchains env rest
      (out.1, out.2.1, DestroyEvent.swapchain h :: out.2.2)

/-- `OpenXrRuntime::xrDestroySession` (session.cpp lines 204-235): handle
check; usage telemetry (external side effect, not modelled); drain all
swapchains; destroy both reference spaces and null their handles; run all
four backend cleanups unconditionally; reset state to `UNKNOWN` and clear
the dirty, created and exiting flags. -/
def xrDestroySession (env : Env) (s : RuntimeState) (session : Nat) : DestroyOutput :=
  if s.m_sessionCreated = false ∨ session ≠ 1 then
    ⟨CallResult.ret XrResult.XR_ERROR_HANDLE_INVALID, s, []⟩
  else
    match drainSwapchains env s.m_swapchains with
    | (some r, remaining, events) =>
      ⟨CallResult.thrown r, { s with m_swapchains := remaining }, events⟩
    | (none, _, events) =>
      let s1 := { s with m_swapchains := [] }
      let r1 := env.xrDestroySpace s1.m_originSpace
      let events1 := events ++ [DestroyEvent.space s1.m_originSpace]
      if XR_FAILED r1 then
        ⟨CallResult.thrown r1, s1, events1⟩
      else
        let s2 := { s1 with m_originSpace := 0 }
        let r2 := env.xrDestroySpace s2.m_viewSpace
        let events2 := events1 ++ [DestroyEvent.space s2.m_viewSpace]
        if XR_FAILED r2 then
          ⟨CallResult.thrown r2, s2, events2⟩
        else
          let s3 := { s2 with m_viewSpace := 0 }
          let events3 := events2 ++ [DestroyEvent.cleanup Backend.opengl,
            DestroyEvent.cleanup Backend.vulkan,
            DestroyEvent.cleanup Backend.d3d12,
            DestroyEvent.cleanup Backend.d3d11]
          ⟨CallResult.ret XrResult.XR_SUCCESS,
            { s3 with
              m_sessionState := XrSessionState.XR_SESSION_STATE_UNKNOWN
              m_sessionStateDirty := false
              m_sessionCreated := false
              m_sessionExiting := false },
            events3⟩

/-- `OpenXrRuntime::xrBeginSession` (session.cpp lines 238-266): structure
tag, handle, view-configuration and state checks in source order; on
success transition to `SYNCHRONIZED`, set the dirty flag and stamp the
event time from the PVR clock. -/
def xrBeginSession (env : Env) (s : RuntimeState) (session : Nat)
    (beginInfo : XrSessionBeginInfo) : XrResult × RuntimeState :=
  if beginInfo.type ≠ XrStructureType.XR_TYPE_SESSION_BEGIN_INFO then
    (XrResult.XR_ERROR_VALIDATION_FAILURE, s)
  else if s.m_sessionCreated = false ∨ session ≠ 1 then
    (XrResult.XR_ERROR_HANDLE_INVALID, s)
  else if beginInfo.primaryViewConfigurationType ≠
      XrViewConfigurationType.XR_VIEW_CONFIGURATION_TYPE_PRIMARY_STEREO then
    (XrResult.XR_ERROR_VIEW_CONFIGURATION_TYPE_UNSUPPORTED, s)
  else if s.m_sessionState ≠ XrSessionState.XR_SESSION_STATE_IDLE ∧
      s.m_sessionState ≠ XrSessionState.XR_SESSION_STATE_READY then
    (XrResult.XR_ERROR_SESSION_NOT_READY, s)
  else
    (XrResult.XR_SUCCESS,
      { s with
        m_sessionState := XrSessionState.XR_SESSION_STATE_SYNCHRONIZED
        m_sessionStateDirty := true
        m_sessionStateEventTime := env.pvr_getTimeSeconds })

/-- `OpenXrRuntime::xrEndSession` (session.cpp lines 269-287): handle and
`STOPPING`-state checks; on success set the exiting flag, return to
`IDLE`, set the dirty flag and stamp the event time. -/
def xrEndSession (env : Env) (s : RuntimeState) (session : Nat) :
    XrResult × RuntimeState :=
  if s.m_sessionCreated = false ∨ session ≠ 1 then
    (XrResult.XR_ERROR_HANDLE_INVALID, s)
  else if s.m_sessionState ≠ XrSessionState.XR_SESSION_STATE_STOPPING then
    (XrResult.XR_ERROR_SESSION_NOT_STOPPING, s)
  else
    (XrResult.XR_SUCCESS,
      { s with
        m_sessionExiting := true
        m_sessionState := XrSessionState.XR_SESSION_STATE_IDLE
        m_sessionStateDirty := true
        m_sessionStateEventTime := env.pvr_getTimeSeconds })

/-- `OpenXrRuntime::xrRequestExitSession` (session.cpp lines 290-307):
handle check, then the running-state check (`SYNCHRONIZED`, `VISIBLE` or
`FOCUSED`); on success transition to `STOPPING`, set the dirty flag and
stamp the event time. -/
def xrRequestExitSession (env : Env) (s : RuntimeState) (session : Nat) :
    XrResult × RuntimeState :=
  if s.m_sessionCreated = false ∨ session ≠ 1 then
    (XrResult.XR_ERROR_HANDLE_INVALID, s)
  else if s.m_sessionState ≠ XrSessionState.XR_SESSION_STATE_SYNCHRONIZED ∧
      s.m_sessionState ≠ XrSessionState.XR_SESSION_STATE_VISIBLE ∧
      s.m_sessionState ≠ XrSessionState.XR_SESSION_STATE_FOCUSED then
    (XrResult.XR_ERROR_SESSION_NOT_RUNNING, s)
  else
    (XrResult.XR_SUCCESS,
      { s with
        m_sessionState := XrSessionState.XR_SESSION_STATE_STOPPING
        m_sessionStateDirty := true
        m_sessionStateEventTime := env.pvr_getTimeSeconds })

/-! ## Concrete fixtures used by witnesses and counterexamples -/

/-- A concrete collaborator environment: D3D11/D3D12/Vulkan/OpenGL enabled,
all collaborator calls succeed, empty configuration store, clock at 5 s. -/
def envAllOk : Env where
  has_XR_KHR_D3D11_enable := true
  has_XR_KHR_D3D12_enable := true
  has_XR_KHR_vulkan_enable := true
  has_XR_KHR_vulkan_enable2 := false
  has_XR_KHR_opengl_enable := true
  initializeD3D11 := fun _ => XrResult.XR_SUCCESS
  initializeD3D12 := fun _ => XrResult.XR_SUCCESS
  initializeVulkan := fun _ => XrResult.XR_SUCCESS
  initializeOpenGL := fun _ => XrResult.XR_SUCCESS
  xrCreateReferenceSpace := fun t =>
    (XrResult.XR_SUCCESS,
      if t = XrReferenceSpaceType.XR_REFERENCE_SPACE_TYPE_LOCAL then 101 else 102)
  xrDestroySwapchain := fun _ => XrResult.XR_SUCCESS
  xrDestroySpace := fun _ => XrResult.XR_SUCCESS
  getSetting := fun _ => none
  pvr_getIntConfig := fun _ d => d
  pvr_getTimeSeconds := 5

/-- `envAllOk`, but with the clock advanced to 7 s. -/
def envLater : Env := { envAllOk with pvr_getTimeSeconds := 7 }

/-- `envAllOk`, but every reference-space creation fails. -/
def envRefSpaceFail : Env :=
  { envAllOk with
    xrCreateReferenceSpace := fun _ => (XrResult.XR_ERROR_RUNTIME_FAILURE, 0) }

/-- `envAllOk`, but the D3D11 initializer fails. -/
def envD3D11Fail : Env :=
  { envAllOk with initializeD3D11 := fun _ => XrResult.XR_ERROR_RUNTIME_FAILURE }

/-- `envAllOk`, but with a configuration store holding
`frame_time_override_multiplier = 50`. -/
def envMult50 : Env :=
  { envAllOk with
    getSetting := fun k => if k = "frame_time_override_multiplier" then some 50 else none }

/-- A concrete runtime state with instance and system created, the
graphics-requirements query done, and no session yet. -/
def baseState : RuntimeState where
  m_instanceCreated := true
  m_systemCreated := true
  m_graphicsRequirementQueried := true
  m_sessionCreated := false
  m_sessionState := XrSessionState.XR_SESSION_STATE_UNKNOWN
  m_sessionStateDirty := false
  m_sessionStateEventTime := 0
  m_sessionExiting := false
  m_sessionStartTime := 0
  m_sessionTotalFrameCount := 0
  m_originSpace := 0
  m_viewSpace := 0
  m_swapchains := []
  m_frameWaited := false
  m_frameBegun := false
  m_lastFrameWaitedTime := none
  m_frameTimes := []
  m_isControllerActive := (false, false)
  m_activeActionSets := []
  m_validActionSets := []
  m_useParallelProjection := false
  m_frameDuration := 1111 / 100
  m_joystickDeadzone := 0
  m_swapGripAimPoses := false
  m_forcedInteractionProfile := none
  m_gpuFrameTimeOverrideOffsetUs := 0
  m_gpuFrameTimeOverrideUs := 0
  m_gpuFrameTimeFilterLength := 0

/-- `baseState` with a created session sitting in `IDLE`. -/
def createdIdleState : RuntimeState :=
  { baseState with
    m_sessionCreated := true
    m_sessionState := XrSessionState.XR_SESSION_STATE_IDLE }

/-- A created session in `STOPPING`. -/
def createdStoppingState : RuntimeState :=
  { baseState with
    m_sessionCreated := true
    m_sessionState := XrSessionState.XR_SESSION_STATE_STOPPING }

/-- A created session in `SYNCHRONIZED`. -/
def createdSyncState : RuntimeState :=
  { baseState with
    m_sessionCreated := true
    m_sessionState := XrSessionState.XR_SESSION_STATE_SYNCHRONIZED }

/-- A created session in `FOCUSED`. -/
def createdFocusedState : RuntimeState :=
  { baseState with
    m_sessionCreated := true
    m_sessionState := XrSessionState.XR_SESSION_STATE_FOCUSED }

/-- A created session in `IDLE` owning two swapchains and two spaces. -/
def createdWithResources : RuntimeState :=
  { createdIdleState with
    m_swapchains := [7, 8]
    m_originSpace := 101
    m_viewSpace := 102 }

/-- A well-formed `XrSessionCreateInfo` with an empty extension chain. -/
def ciGood : XrSessionCreateInfo :=
  ⟨XrStructureType.XR_TYPE_SESSION_CREATE_INFO, 1, 0, []⟩

/-- A D3D11 graphics-binding chain entry. -/
def entryD3D11 : ChainEntry :=
  ⟨XrStructureType.XR_TYPE_GRAPHICS_BINDING_D3D11_KHR, 11⟩

/-- A Vulkan graphics-binding chain entry. -/
def entryVulkan : ChainEntry :=
  ⟨XrStructureType.XR_TYPE_GRAPHICS_BINDING_VULKAN_KHR, 31⟩

/-- A well-formed `XrSessionBeginInfo` requesting the stereo
view-configuration. -/
def biGood : XrSessionBeginInfo :=
  ⟨XrStructureType.XR_TYPE_SESSION_BEGIN_INFO,
    XrViewConfigurationType.XR_VIEW_CONFIGURATION_TYPE_PRIMARY_STEREO⟩

/-! ## Claim theorems -/

/-- C1: the Create preconditions are checked strictly in source order — a
malformed structure tag fails with validation-failure, an invalid instance
handle with handle-invalid, an invalid system identifier with
system-invalid, a missing graphics-requirements query with
graphics-requirements-call-missing, and an already-existing session with
the resource-limit error — each failure leaving the runtime state (in
particular an existing session's state, flags and resources) unchanged,
invoking no backend initializer and writing no session handle. -/
theorem C1_create_precondition_order (env : Env) (s : RuntimeState)
    (instanceHandle : Nat) (ci : XrSessionCreateInfo) :
    (ci.type ≠ XrStructureType.XR_TYPE_SESSION_CREATE_INFO →
      xrCreateSession env s instanceHandle ci =
        ⟨CallResult.ret XrResult.XR_ERROR_VALIDATION_FAILURE, s, [], none⟩) ∧
    (ci.type = XrStructureType.XR_TYPE_SESSION_CREATE_INFO →
      (s.m_instanceCreated = false ∨ instanceHandle ≠ 1) →
      xrCreateSession env s instanceHandle ci =
        ⟨CallResult.ret XrResult.XR_ERROR_HANDLE_INVALID, s, [], none⟩) ∧
    (ci.type = XrStructureType.XR_TYPE_SESSION_CREATE_INFO →
      s.m_instanceCreated = true → instanceHandle = 1 →
      (s.m_systemCreated = false ∨ ci.systemId ≠ 1) →
      xrCreateSession env s instanceHandle ci =
        ⟨CallResult.ret XrResult.XR_ERROR_SYSTEM_INVALID, s, [], none⟩) ∧
    (ci.type = XrStructureType.XR_TYPE_SESSION_CREATE_INFO →
      s.m_instanceCreated = true → instanceHandle = 1 →
      s.m_systemCreated = true → ci.systemId = 1 →
      s.m_graphicsRequirementQueried = false →
      xrCreateSession env s instanceHandle ci =
        ⟨CallResult.ret XrResult.XR_ERROR_GRAPHICS_REQUIREMENTS_CALL_MISSING,
          s, [], none⟩) ∧
    (ci.type = XrStructureType.XR_TYPE_SESSION_CREATE_INFO →
      s.m_instanceCreated = true → instanceHandle = 1 →
      s.m_systemCreated = true → ci.systemId = 1 →
      s.m_graphicsRequirementQueried = true →
      s.m_sessionCreated = true →
      xrCreateSession env s instanceHandle ci =
        ⟨CallResult.ret XrResult.XR_ERROR_LIMIT_REACHED, s, [], none⟩) := by
  refine ⟨fun h1 => ?_, fun h1 h2 => ?_, fun h1 h2 h3 h4 => ?_,
    fun h1 h2 h3 h4 h5 h6 => ?_, fun h1 h2 h3 h4 h5 h6 h7 => ?_⟩ <;>
    unfold xrCreateSession
  · rw [if_pos h1]
  · rw [if_neg (not_not_intro h1), if_pos h2]
  · rw [if_neg (not_not_intro h1), if_neg (by simp [h2, h3]), if_pos h4]
  · rw [if_neg (not_not_intro h1), if_neg (by simp [h2, h3]),
      if_neg (by simp [h4, h5]), if_pos h6]
  · rw [if_neg (not_not_intro h1), if_neg (by simp [h2, h3]),
      if_neg (by simp [h4, h5]), if_neg (by simp [h6]), if_pos h7]

/-- C1 witness: with a session already created in `IDLE`, a second Create
attempt fails with the resource-limit error and leaves everything
unchanged. -/
theorem C1_create_precondition_order_witness :
    createdIdleState.m_sessionCreated = true ∧
    xrCreateSession envAllOk createdIdleState 1 ciGood =
      ⟨CallResult.ret XrResult.XR_ERROR_LIMIT_REACHED, createdIdleState, [], none⟩ :=
  ⟨rfl, (C1_create_precondition_order envAllOk createdIdleState 1
    ciGood).2.2.2.2 rfl rfl rfl rfl rfl rfl rfl⟩

/-- C4: the Begin checks run in source order — malformed structure tag →
validation-failure, invalid or non-created session handle → handle-invalid,
a primary view-configuration other than the supported stereo one →
view-configuration-unsupported, a state other than `IDLE` or `READY` →
session-not-ready (in particular from `FOCUSED`) — each failure leaving the
state unchanged; when all checks pass the state becomes `SYNCHRONIZED`. -/
theorem C4_begin_checks_and_transition (env : Env) (s : RuntimeState)
    (session : Nat) (bi : XrSessionBeginInfo) :
    (bi.type ≠ XrStructureType.XR_TYPE_SESSION_BEGIN_INFO →
      xrBeginSession env s session bi = (XrResult.XR_ERROR_VALIDATION_FAILURE, s)) ∧
    (bi.type = XrStructureType.XR_TYPE_SESSION_BEGIN_INFO →
      (s.m_sessionCreated = false ∨ session ≠ 1) →
      xrBeginSession env s session bi = (XrResult.XR_ERROR_HANDLE_INVALID, s)) ∧
    (bi.type = XrStructureType.XR_TYPE_SESSION_BEGIN_INFO →
      s.m_sessionCreated = true → session = 1 →
      bi.primaryViewConfigurationType ≠
        XrViewConfigurationType.XR_VIEW_CONFIGURATION_TYPE_PRIMARY_STEREO →
      xrBeginSession env s session bi =
        (XrResult.XR_ERROR_VIEW_CONFIGURATION_TYPE_UNSUPPORTED, s)) ∧
    (bi.type = XrStructureType.XR_TYPE_SESSION_BEGIN_INFO →
      s.m_sessionCreated = true → session = 1 →
      bi.primaryViewConfigurationType =
        XrViewConfigurationType.XR_VIEW_CONFIGURATION_TYPE_PRIMARY_STEREO →
      s.m_sessionState ≠ XrSessionState.XR_SESSION_STATE_IDLE →
      s.m_sessionState ≠ XrSessionState.XR_SESSION_STATE_READY →
      xrBeginSession env s session bi = (XrResult.XR_ERROR_SESSION_NOT_READY, s)) ∧
    (bi.type = XrStructureType.XR_TYPE_SESSION_BEGIN_INFO →
      s.m_sessionCreated = true → session = 1 →
      bi.primaryViewConfigurationType =
        XrViewConfigurationType.XR_VIEW_CONFIGURATION_TYPE_PRIMARY_STEREO →
      s.m_sessionState = XrSessionState.XR_SESSION_STATE_FOCUSED →
      xrBeginSession env s session bi = (XrResult.XR_ERROR_SESSION_NOT_READY, s)) ∧
    (bi.type = XrStructureType.XR_TYPE_SESSION_BEGIN_INFO →
      s.m_sessionCreated = true → session = 1 →
      bi.primaryViewConfigurationType =
        XrViewConfigurationType.XR_VIEW_CONFIGURATION_TYPE_PRIMARY_STEREO →
      (s.m_sessionState = XrSessionState.XR_SESSION_STATE_IDLE ∨
        s.m_sessionState = XrSessionState.XR_SESSION_STATE_READY) →
      xrBeginSession env s session bi =
        (XrResult.XR_SUCCESS,
          { s with
            m_sessionState := XrSessionState.XR_SESSION_STATE_SYNCHRONIZED
            m_sessionStateDirty := true
            m_sessionStateEventTime := env.pvr_getTimeSeconds })) := by
  refine ⟨fun h1 => ?_, fun h1 h2 => ?_, fun h1 h2 h3 h4 => ?_,
    fun h1 h2 h3 h4 h5 h6 => ?_, fun h1 h2 h3 h4 h5 => ?_,
    fun h1 h2 h3 h4 h5 => ?_⟩ <;>
    unfold xrBeginSession
  · rw [if_pos h1]
  · rw [if_neg (not_not_intro h1), if_pos h2]
  · rw [if_neg (not_not_intro h1), if_neg (by simp [h2, h3]), if_pos h4]
  · rw [if_neg (not_not_intro h1), if_neg (by simp [h2, h3]),
      if_neg (not_not_intro h4), if_pos ⟨h5, h6⟩]
  · rw [if_neg (not_not_intro h1), if_neg (by simp [h2, h3]),
      if_neg (not_not_intro h4), if_pos (by simp [h5])]
  · rw [if_neg (not_not_intro h1), if_neg (by simp [h2, h3]),
      if_neg (not_not_intro h4), if_neg (by rcases h5 with h | h <;> simp [h])]

/-- C4 witness: Begin from a created `IDLE` session with the stereo
view-configuration succeeds and sets the state to `SYNCHRONIZED`. -/
theorem C4_begin_checks_and_transition_witness :
    createdIdleState.m_sessionState = XrSessionState.XR_SESSION_STATE_IDLE ∧
    xrBeginSession envAllOk createdIdleState 1 biGood =
      (XrResult.XR_SUCCESS,
        { createdIdleState with
          m_sessionState := XrSessionState.XR_SESSION_STATE_SYNCHRONIZED
          m_sessionStateDirty := true
          m_sessionStateEventTime := envAllOk.pvr_getTimeSeconds }) :=
  ⟨rfl, (C4_begin_checks_and_transition envAllOk createdIdleState 1
    biGood).2.2.2.2.2 rfl rfl rfl rfl (Or.inl rfl)⟩

/-- C5: End on a valid created session handle fails with
session-not-stopping (changing nothing) unless the state is `STOPPING`;
from `STOPPING` it succeeds, sets the state to `IDLE` and the exiting flag
to true, so an immediately following second End call fails with
session-not-stopping. -/
theorem C5_end_requires_stopping (env env2 : Env) (s : RuntimeState) :
    (s.m_sessionCreated = true →
      s.m_sessionState ≠ XrSessionState.XR_SESSION_STATE_STOPPING →
      xrEndSession env s 1 = (XrResult.XR_ERROR_SESSION_NOT_STOPPING, s)) ∧
    (s.m_sessionCreated = true →
      s.m_sessionState = XrSessionState.XR_SESSION_STATE_STOPPING →
      xrEndSession env s 1 =
        (XrResult.XR_SUCCESS,
          { s with
            m_sessionExiting := true
            m_sessionState := XrSessionState.XR_SESSION_STATE_IDLE
            m_sessionStateDirty := true
            m_sessionStateEventTime := env.pvr_getTimeSeconds }) ∧
      (xrEndSession env2 (xrEndSession env s 1).2 1).1 =
        XrResult.XR_ERROR_SESSION_NOT_STOPPING) := by
  refine ⟨fun h1 h2 => ?_, fun h1 h2 => ?_⟩
  · unfold xrEndSession
    rw [if_neg (by simp [h1]), if_pos h2]
  · have hmain : xrEndSession env s 1 =
        (XrResult.XR_SUCCESS,
          { s with
            m_sessionExiting := true
            m_sessionState := XrSessionState.XR_SESSION_STATE_IDLE
            m_sessionStateDirty := true
            m_sessionStateEventTime := env.pvr_getTimeSeconds }) := by
      unfold xrEndSession
      rw [if_neg (by simp [h1]), if_neg (not_not_intro h2)]
    refine ⟨hmain, ?_⟩
    rw [hmain]
    unfold xrEndSession
    rw [if_neg (by simp [h1]), if_pos (by simp)]

/-- C5 witness: End from a created `STOPPING` session succeeds, returns to
`IDLE` with the exiting flag set, and a second End fails with
session-not-stopping. -/
theorem C5_end_requires_stopping_witness :
    createdStoppingState.m_sessionState =
      XrSessionState.XR_SESSION_STATE_STOPPING ∧
    xrEndSession envAllOk createdStoppingState 1 =
      (XrResult.XR_SUCCESS,
        { createdStoppingState with
          m_sessionExiting := true
          m_sessionState := XrSessionState.XR_SESSION_STATE_IDLE
          m_sessionStateDirty := true
          m_sessionStateEventTime := envAllOk.pvr_getTimeSeconds }) ∧
    (xrEndSession envLater (xrEndSession envAllOk createdStoppingState 1).2 1).1 =
      XrResult.XR_ERROR_SESSION_NOT_STOPPING :=
  ⟨rfl, (C5_end_requires_stopping envAllOk envLater createdStoppingState).2 rfl rfl⟩

/-- C6: RequestExit on a valid created session handle succeeds from
`SYNCHRONIZED`, `VISIBLE` or `FOCUSED`, setting the state to `STOPPING`;
from every other state (in particular `IDLE`) it fails with
session-not-running and changes nothing. -/
theorem C6_request_exit_transitions (env : Env) (s : RuntimeState) :
    (s.m_sessionCreated = true →
      (s.m_sessionState = XrSessionState.XR_SESSION_STATE_SYNCHRONIZED ∨
        s.m_sessionState = XrSessionState.XR_SESSION_STATE_VISIBLE ∨
        s.m_sessionState = XrSessionState.XR_SESSION_STATE_FOCUSED) →
      xrRequestExitSession env s 1 =
        (XrResult.XR_SUCCESS,
          { s with
            m_sessionState := XrSessionState.XR_SESSION_STATE_STOPPING
            m_sessionStateDirty := true
            m_sessionStateEventTime := env.pvr_getTimeSeconds })) ∧
    (s.m_sessionCreated = true →
      s.m_sessionState ≠ XrSessionState.XR_SESSION_STATE_SYNCHRONIZED →
      s.m_sessionState ≠ XrSessionState.XR_SESSION_STATE_VISIBLE →
      s.m_sessionState ≠ XrSessionState.XR_SESSION_STATE_FOCUSED →
      xrRequestExitSession env s 1 =
        (XrResult.XR_ERROR_SESSION_NOT_RUNNING, s)) := by
  refine ⟨fun h1 h2 => ?_, fun h1 h2 h3 h4 => ?_⟩ <;>
    unfold xrRequestExitSession
  · rw [if_neg (by simp [h1]),
      if_neg (by rcases h2 with h | h | h <;> simp [h])]
  · rw [if_neg (by simp [h1]), if_pos ⟨h2, h3, h4⟩]

/-- C6 witness: RequestExit from `SYNCHRONIZED` succeeds and sets the
state to `STOPPING`; from `IDLE` it fails with session-not-running. -/
theorem C6_request_exit_transitions_witness :
    createdSyncState.m_sessionState =
      XrSessionState.XR_SESSION_STATE_SYNCHRONIZED ∧
    xrRequestExitSession envAllOk createdSyncState 1 =
      (XrResult.XR_SUCCESS,
        { createdSyncState with
          m_sessionState := XrSessionState.XR_SESSION_STATE_STOPPING
          m_sessionStateDirty := true
          m_sessionStateEventTime := envAllOk.pvr_getTimeSeconds }) ∧
    xrRequestExitSession envAllOk createdIdleState 1 =
      (XrResult.XR_ERROR_SESSION_NOT_RUNNING, createdIdleState) :=
  ⟨rfl,
    (C6_request_exit_transitions envAllOk createdSyncState).1 rfl (Or.inl rfl),
    (C6_request_exit_transitions envAllOk createdIdleState).2 rfl
      (by decide) (by decide) (by decide)⟩

/-- The scan finds nothing exactly when no entry of the chain is an
eligible graphics binding. -/
theorem scanGraphicsBindings_eq_none_iff (env : Env) (chain : List ChainEntry) :
    scanGraphicsBindings env chain = none ↔
      ∀ e ∈ chain, eligibleBinding env e = none := by
  induction chain with
  | nil => simp [scanGraphicsBindings]
  | cons a rest ih =>
    rw [scanGraphicsBindings]
    cases ha : eligibleBinding env a with
    | some b => simp [ha]
    | none => simp [ha, ih]

/-- First-match-wins: a successful scan returns an eligible entry all of
whose predecessors in the chain are ineligible. -/
theorem scanGraphicsBindings_first_match (env : Env) (chain : List ChainEntry)
    (b : Backend) (e : ChainEntry)
    (h : scanGraphicsBindings env chain = some (b, e)) :
    ∃ pre post, chain = pre ++ e :: post ∧
      (∀ x ∈ pre, eligibleBinding env x = none) ∧
      eligibleBinding env e = some b := by
  induction chain with
  | nil => simp [scanGraphicsBindings] at h
  | cons a rest ih =>
    rw [scanGraphicsBindings] at h
    cases ha : eligibleBinding env a with
    | some b2 =>
      rw [ha] at h
      simp only [Option.some.injEq, Prod.mk.injEq] at h
      obtain ⟨rfl, rfl⟩ := h
      exact ⟨[], rest, rfl, by simp, ha⟩
    | none =>
      rw [ha] at h
      obtain ⟨pre, post, rfl, hpre, he⟩ := ih h
      refine ⟨a :: pre, post, rfl, ?_, he⟩
      intro x hx
      rcases List.mem_cons.mp hx with rfl | hx
      · exact ha
      · exact hpre x hx

/-- With the Create preconditions satisfied and the scan selecting backend
`b` for entry `e`, Create invokes exactly that backend's initializer. -/
theorem xrCreateSession_invoked_of_scan (env : Env) (s : RuntimeState)
    (instanceHandle : Nat) (ci : XrSessionCreateInfo)
    (h1 : ci.type = XrStructureType.XR_TYPE_SESSION_CREATE_INFO)
    (h2 : s.m_instanceCreated = true) (h3 : instanceHandle = 1)
    (h4 : s.m_systemCreated = true) (h5 : ci.systemId = 1)
    (h6 : s.m_graphicsRequirementQueried = true)
    (h7 : s.m_sessionCreated = false)
    (b : Backend) (e : ChainEntry)
    (hscan : scanGraphicsBindings env ci.next = some (b, e)) :
    (xrCreateSession env s instanceHandle ci).invoked = [b] := by
  unfold xrCreateSession
  rw [if_neg (not_not_intro h1), if_neg (by simp [h2, h3]),
    if_neg (by simp [h4, h5]), if_neg (by simp [h6]),
    if_neg (by simp [h7]), hscan]
  dsimp only
  split
  · rfl
  · split
    · rfl
    · split <;> rfl

/-- With the Create preconditions satisfied, the scan selecting `(b, e)`,
the initializer succeeding, and both reference-space creations succeeding,
Create returns success, writes handle 1, and leaves a created `IDLE`
session stamped with the current clock value. -/
theorem xrCreateSession_success_shape (env : Env) (s : RuntimeState)
    (instanceHandle : Nat) (ci : XrSessionCreateInfo)
    (h1 : ci.type = XrStructureType.XR_TYPE_SESSION_CREATE_INFO)
    (h2 : s.m_instanceCreated = true) (h3 : instanceHandle = 1)
    (h4 : s.m_systemCreated = true) (h5 : ci.systemId = 1)
    (h6 : s.m_graphicsRequirementQueried = true)
    (h7 : s.m_sessionCreated = false)
    (b : Backend) (e : ChainEntry)
    (hscan : scanGraphicsBindings env ci.next = some (b, e))
    (hinit : XR_FAILED (initializeBackend env b e) = false)
    (hr1 : XR_FAILED (env.xrCreateReferenceSpace
      XrReferenceSpaceType.XR_REFERENCE_SPACE_TYPE_LOCAL).1 = false)
    (hr2 : XR_FAILED (env.xrCreateReferenceSpace
      XrReferenceSpaceType.XR_REFERENCE_SPACE_TYPE_VIEW).1 = false) :
    ∃ st : RuntimeState,
      xrCreateSession env s instanceHandle ci =
        ⟨CallResult.ret XrResult.XR_SUCCESS, st, [b], some 1⟩ ∧
      st.m_sessionCreated = true ∧
      st.m_sessionState = XrSessionState.XR_SESSION_STATE_IDLE ∧
      st.m_sessionStateDirty = true ∧
      st.m_sessionStateEventTime = env.pvr_getTimeSeconds ∧
      st.m_sessionStartTime = env.pvr_getTimeSeconds ∧
      st.m_instanceCreated = s.m_instanceCreated ∧
      st.m_systemCreated = s.m_systemCreated ∧
      st.m_graphicsRequirementQueried = s.m_graphicsRequirementQueried := by
  unfold xrCreateSession
  rw [if_neg (not_not_intro h1), if_neg (by simp [h2, h3]),
    if_neg (by simp [h4, h5]), if_neg (by simp [h6]),
    if_neg (by simp [h7]), hscan]
  dsimp only
  rw [if_neg (by simp [hinit]), if_neg (by simp [hr1]), if_neg (by simp [hr2])]
  exact ⟨_, rfl, rfl, rfl, rfl, rfl, rfl, rfl, rfl, rfl⟩

/-- C2: with the Create preconditions satisfied, the graphics-binding scan
visits the chain in order and Create invokes the initializer of exactly
the first eligible entry (an entry whose recognized binding tag has its
capability extension enabled), then stops; a chain with no eligible entry
fails with the device-invalid error with no initializer invoked; a failing
chosen initializer has its exact failure code returned immediately with no
state change; and a chain with an eligible D3D11 entry followed by a
Vulkan entry invokes only the D3D11 initializer. -/
theorem C2_binding_scan_dispatch (env : Env) (s : RuntimeState)
    (instanceHandle : Nat) (ci : XrSessionCreateInfo)
    (h1 : ci.type = XrStructureType.XR_TYPE_SESSION_CREATE_INFO)
    (h2 : s.m_instanceCreated = true) (h3 : instanceHandle = 1)
    (h4 : s.m_systemCreated = true) (h5 : ci.systemId = 1)
    (h6 : s.m_graphicsRequirementQueried = true)
    (h7 : s.m_sessionCreated = false) :
    (scanGraphicsBindings env ci.next = none →
      xrCreateSession env s instanceHandle ci =
        ⟨CallResult.ret XrResult.XR_ERROR_GRAPHICS_DEVICE_INVALID, s, [], none⟩) ∧
    (∀ b e, scanGraphicsBindings env ci.next = some (b, e) →
      (xrCreateSession env s instanceHandle ci).invoked = [b] ∧
      ∃ pre post, ci.next = pre ++ e :: post ∧
        (∀ x ∈ pre, eligibleBinding env x = none) ∧
        eligibleBinding env e = some b) ∧
    (∀ b e, scanGraphicsBindings env ci.next = some (b, e) →
      XR_FAILED (initializeBackend env b e) = true →
      xrCreateSession env s instanceHandle ci =
        ⟨CallResult.ret (initializeBackend env b e), s, [b], none⟩) ∧
    (∀ e1 e2, ci.next = [e1, e2] →
      e1.type = XrStructureType.XR_TYPE_GRAPHICS_BINDING_D3D11_KHR →
      e2.type = XrStructureType.XR_TYPE_GRAPHICS_BINDING_VULKAN_KHR →
      env.has_XR_KHR_D3D11_enable = true →
      (xrCreateSession env s instanceHandle ci).invoked = [Backend.d3d11]) := by
  refine ⟨fun hscan => ?_, fun b e hscan => ?_, fun b e hscan hfail => ?_,
    fun e1 e2 hnext ht1 ht2 hd => ?_⟩
  · unfold xrCreateSession
    rw [if_neg (not_not_intro h1), if_neg (by simp [h2, h3]),
      if_neg (by simp [h4, h5]), if_neg (by simp [h6]),
      if_neg (by simp [h7]), hscan]
  · exact ⟨xrCreateSession_invoked_of_scan env s instanceHandle ci
      h1 h2 h3 h4 h5 h6 h7 b e hscan,
      scanGraphicsBindings_first_match env ci.next b e hscan⟩
  · unfold xrCreateSession
    rw [if_neg (not_not_intro h1), if_neg (by simp [h2, h3]),
      if_neg (by simp [h4, h5]), if_neg (by simp [h6]),
      if_neg (by simp [h7]), hscan]
    dsimp only
    rw [if_pos hfail]
  · refine xrCreateSession_invoked_of_scan env s instanceHandle ci
      h1 h2 h3 h4 h5 h6 h7 Backend.d3d11 e1 ?_
    rw [hnext]
    rw [scanGraphicsBindings]
    have : eligibleBinding env e1 = some Backend.d3d11 := by
      unfold eligibleBinding
      rw [if_pos ⟨hd, ht1⟩]
    rw [this]

/-- C2 witness: the concrete chain `[D3D11 entry, Vulkan entry]` with both
extensions enabled invokes only the D3D11 initializer. -/
theorem C2_binding_scan_dispatch_witness :
    (xrCreateSession envAllOk baseState 1
      { ciGood with next := [entryD3D11, entryVulkan] }).invoked = [Backend.d3d11] :=
  (C2_binding_scan_dispatch envAllOk baseState 1
    { ciGood with next := [entryD3D11, entryVulkan] }
    rfl rfl rfl rfl rfl rfl rfl).2.2.2 entryD3D11 entryVulkan rfl rfl rfl rfl

/-- When every per-swapchain destruction succeeds, the drain loop empties
the collection and destroys the swapchains in collection order. -/
theorem drainSwapchains_all_ok (env : Env) (l : List Nat)
    (h : ∀ x ∈ l, XR_FAILED (env.xrDestroySwapchain x) = false) :
    drainSwapchains env l = (none, [], l.map DestroyEvent.swapchain) := by
  induction l with
  | nil => rfl
  | cons a rest ih =>
    rw [drainSwapchains]
    dsimp only
    rw [if_neg (by simp [h a (List.mem_cons_self a rest)]),
      ih (fun x hx => h x (List.mem_cons_of_mem a hx))]
    rfl

/-- C3: Destroy on the valid created session handle (with all collaborator
destructions succeeding) destroys every outstanding swapchain, then the
origin and view reference spaces (clearing their handles), then runs all
four backend cleanups unconditionally, resets the state to `UNKNOWN`,
clears the dirty, exiting and created flags — so a subsequent Destroy on
the same handle fails with handle-invalid; and any Destroy with no created
session or a handle other than 1 fails with handle-invalid changing
nothing. -/
theorem C3_destroy_sequencing (env env2 : Env) (s : RuntimeState)
    (hcreated : s.m_sessionCreated = true)
    (hsw : ∀ x ∈ s.m_swapchains, XR_FAILED (env.xrDestroySwapchain x) = false)
    (hsp1 : XR_FAILED (env.xrDestroySpace s.m_originSpace) = false)
    (hsp2 : XR_FAILED (env.xrDestroySpace s.m_viewSpace) = false) :
    xrDestroySession env s 1 =
      ⟨CallResult.ret XrResult.XR_SUCCESS,
        { s with
          m_swapchains := []
          m_originSpace := 0
          m_viewSpace := 0
          m_sessionState := XrSessionState.XR_SESSION_STATE_UNKNOWN
          m_sessionStateDirty := false
          m_sessionCreated := false
          m_sessionExiting := false },
        s.m_swapchains.map DestroyEvent.swapchain ++
          [DestroyEvent.space s.m_originSpace, DestroyEvent.space s.m_viewSpace,
           DestroyEvent.cleanup Backend.opengl, DestroyEvent.cleanup Backend.vulkan,
           DestroyEvent.cleanup Backend.d3d12, DestroyEvent.cleanup Backend.d3d11]⟩ ∧
    (∀ handle, xrDestroySession env2 (xrDestroySession env s 1).state handle =
      ⟨CallResult.ret XrResult.XR_ERROR_HANDLE_INVALID,
        (xrDestroySession env s 1).state, []⟩) ∧
    (∀ s2 : RuntimeState, ∀ handle,
      s2.m_sessionCreated = false ∨ handle ≠ 1 →
      xrDestroySession env2 s2 handle =
        ⟨CallResult.ret XrResult.XR_ERROR_HANDLE_INVALID, s2, []⟩) := by
  have hmain : xrDestroySession env s 1 =
      ⟨CallResult.ret XrResult.XR_SUCCESS,
        { s with
          m_swapchains := []
          m_originSpace := 0
          m_viewSpace := 0
          m_sessionState := XrSessionState.XR_SESSION_STATE_UNKNOWN
          m_sessionStateDirty := false
          m_sessionCreated := false
          m_sessionExiting := false },
        s.m_swapchains.map DestroyEvent.swapchain ++
          [DestroyEvent.space s.m_originSpace, DestroyEvent.space s.m_viewSpace,
           DestroyEvent.cleanup Backend.opengl, DestroyEvent.cleanup Backend.vulkan,
           DestroyEvent.cleanup Backend.d3d12, DestroyEvent.cleanup Backend.d3d11]⟩ := by
    unfold xrDestroySession
    rw [if_neg (by simp [hcreated]), drainSwapchains_all_ok env s.m_swapchains hsw]
    dsimp only
    rw [if_neg (by simpa using hsp1), if_neg (by simpa using hsp2)]
    simp [List.append_assoc]
  refine ⟨hmain, fun handle => ?_, fun s2 handle h => ?_⟩
  · rw [hmain]
    unfold xrDestroySession
    rw [if_pos (Or.inl rfl)]
  · unfold xrDestroySession
    rw [if_pos h]

/-- C3 witness: destroying a session owning swapchains 7 and 8 and spaces
101/102 destroys both swapchains first, then the spaces, then the four
backends; re-destroying the same handle then fails with handle-invalid. -/
theorem C3_destroy_sequencing_witness :
    createdWithResources.m_sessionCreated = true ∧
    (xrDestroySession envAllOk createdWithResources 1).events =
      [DestroyEvent.swapchain 7, DestroyEvent.swapchain 8,
       DestroyEvent.space 101, DestroyEvent.space 102,
       DestroyEvent.cleanup Backend.opengl, DestroyEvent.cleanup Backend.vulkan,
       DestroyEvent.cleanup Backend.d3d12, DestroyEvent.cleanup Backend.d3d11] ∧
    (xrDestroySession envLater
      (xrDestroySession envAllOk createdWithResources 1).state 1).result =
      CallResult.ret XrResult.XR_ERROR_HANDLE_INVALID := by
  have h := C3_destroy_sequencing envAllOk envLater createdWithResources
    rfl (by decide) rfl rfl
  refine ⟨rfl, ?_, ?_⟩
  · rw [h.1]
    rfl
  · rw [h.2.1 1]

/-- C7: if, with all Create preconditions satisfied and the chosen backend
initializer succeeded, a reference-space creation fails, Create clears the
created flag before re-raising the collaborator's failure (the call ends
`thrown`, no session is observable as created, no session handle is
written), while the rest of the already-performed setup — the `IDLE`
session state from the bookkeeping reset, and the backend initialization
recorded in the invocation trace — is not rolled back or released. -/
theorem C7_create_refspace_failure_rollback (env : Env) (s : RuntimeState)
    (instanceHandle : Nat) (ci : XrSessionCreateInfo)
    (h1 : ci.type = XrStructureType.XR_TYPE_SESSION_CREATE_INFO)
    (h2 : s.m_instanceCreated = true) (h3 : instanceHandle = 1)
    (h4 : s.m_systemCreated = true) (h5 : ci.systemId = 1)
    (h6 : s.m_graphicsRequirementQueried = true)
    (h7 : s.m_sessionCreated = false)
    (b : Backend) (e : ChainEntry)
    (hscan : scanGraphicsBindings env ci.next = some (b, e))
    (hinit : XR_FAILED (initializeBackend env b e) = false) :
    (XR_FAILED (env.xrCreateReferenceSpace
        XrReferenceSpaceType.XR_REFERENCE_SPACE_TYPE_LOCAL).1 = true →
      (xrCreateSession env s instanceHandle ci).result =
        CallResult.thrown (env.xrCreateReferenceSpace
          XrReferenceSpaceType.XR_REFERENCE_SPACE_TYPE_LOCAL).1 ∧
      (xrCreateSession env s instanceHandle ci).state.m_sessionCreated = false ∧
      (xrCreateSession env s instanceHandle ci).state.m_sessionState =
        XrSessionState.XR_SESSION_STATE_IDLE ∧
      (xrCreateSession env s instanceHandle ci).invoked = [b] ∧
      (xrCreateSession env s instanceHandle ci).sessionOut = none) ∧
    (XR_FAILED (env.xrCreateReferenceSpace
        XrReferenceSpaceType.XR_REFERENCE_SPACE_TYPE_LOCAL).1 = false →
      XR_FAILED (env.xrCreateReferenceSpace
        XrReferenceSpaceType.XR_REFERENCE_SPACE_TYPE_VIEW).1 = true →
      (xrCreateSession env s instanceHandle ci).result =
        CallResult.thrown (env.xrCreateReferenceSpace
          XrReferenceSpaceType.XR_REFERENCE_SPACE_TYPE_VIEW).1 ∧
      (xrCreateSession env s instanceHandle ci).state.m_sessionCreated = false ∧
      (xrCreateSession env s instanceHandle ci).state.m_sessionState =
        XrSessionState.XR_SESSION_STATE_IDLE ∧
      (xrCreateSession env s instanceHandle ci).invoked = [b] ∧
      (xrCreateSession env s instanceHandle ci).sessionOut = none) := by
  refine ⟨fun hr1 => ?_, fun hr1 hr2 => ?_⟩ <;>
    (unfold xrCreateSession
     rw [if_neg (not_not_intro h1), if_neg (by simp [h2, h3]),
       if_neg (by simp [h4, h5]), if_neg (by simp [h6]),
       if_neg (by simp [h7]), hscan]
     dsimp only
     rw [if_neg (by simp [hinit])])
  · rw [if_pos hr1]
    exact ⟨rfl, rfl, rfl, rfl, rfl⟩
  · rw [if_neg (by simp [hr1]), if_pos hr2]
    exact ⟨rfl, rfl, rfl, rfl, rfl⟩

/-- C7 witness: with an eligible D3D11 binding and an environment whose
reference-space creation fails, Create ends by re-raising the failure with
the created flag cleared and the backend initializer already invoked. -/
theorem C7_create_refspace_failure_rollback_witness :
    XR_FAILED (envRefSpaceFail.xrCreateReferenceSpace
      XrReferenceSpaceType.XR_REFERENCE_SPACE_TYPE_LOCAL).1 = true ∧
    (xrCreateSession envRefSpaceFail baseState 1
        { ciGood with next := [entryD3D11] }).result =
      CallResult.thrown XrResult.XR_ERROR_RUNTIME_FAILURE ∧
    (xrCreateSession envRefSpaceFail baseState 1
        { ciGood with next := [entryD3D11] }).state.m_sessionCreated = false ∧
    (xrCreateSession envRefSpaceFail baseState 1
        { ciGood with next := [entryD3D11] }).invoked = [Backend.d3d11] := by
  have h := (C7_create_refspace_failure_rollback envRefSpaceFail baseState 1
    { ciGood with next := [entryD3D11] } rfl rfl rfl rfl rfl rfl rfl
    Backend.d3d11 entryD3D11 (by decide) rfl).1 rfl
  exact ⟨rfl, h.1, h.2.1, h.2.2.2.1⟩

/-- C8: every successful transition of Create, Begin, End and RequestExit
sets the dirty flag and stamps `m_sessionStateEventTime` from the device
clock; and a successful Begin after a successful Create, with the
monotonic clock strictly advanced between the two calls, yields a
state-event time strictly greater than the timestamp recorded at
creation. -/
theorem C8_transitions_stamp_clock (env envB : Env) (s : RuntimeState)
    (instanceHandle : Nat) (ci : XrSessionCreateInfo) (bi : XrSessionBeginInfo) :
    (bi.type = XrStructureType.XR_TYPE_SESSION_BEGIN_INFO →
      s.m_sessionCreated = true →
      bi.primaryViewConfigurationType =
        XrViewConfigurationType.XR_VIEW_CONFIGURATION_TYPE_PRIMARY_STEREO →
      (s.m_sessionState = XrSessionState.XR_SESSION_STATE_IDLE ∨
        s.m_sessionState = XrSessionState.XR_SESSION_STATE_READY) →
      (xrBeginSession env s 1 bi).2.m_sessionStateDirty = true ∧
      (xrBeginSession env s 1 bi).2.m_sessionStateEventTime =
        env.pvr_getTimeSeconds) ∧
    (s.m_sessionCreated = true →
      s.m_sessionState = XrSessionState.XR_SESSION_STATE_STOPPING →
      (xrEndSession env s 1).2.m_sessionStateDirty = true ∧
      (xrEndSession env s 1).2.m_sessionStateEventTime =
        env.pvr_getTimeSeconds) ∧
    (s.m_sessionCreated = true →
      (s.m_sessionState = XrSessionState.XR_SESSION_STATE_SYNCHRONIZED ∨
        s.m_sessionState = XrSessionState.XR_SESSION_STATE_VISIBLE ∨
        s.m_sessionState = XrSessionState.XR_SESSION_STATE_FOCUSED) →
      (xrRequestExitSession env s 1).2.m_sessionStateDirty = true ∧
      (xrRequestExitSession env s 1).2.m_sessionStateEventTime =
        env.pvr_getTimeSeconds) ∧
    (∀ b e,
      ci.type = XrStructureType.XR_TYPE_SESSION_CREATE_INFO →
      s.m_instanceCreated = true → instanceHandle = 1 →
      s.m_systemCreated = true → ci.systemId = 1 →
      s.m_graphicsRequirementQueried = true →
      s.m_sessionCreated = false →
      scanGraphicsBindings env ci.next = some (b, e) →
      XR_FAILED (initializeBackend env b e) = false →
      XR_FAILED (env.xrCreateReferenceSpace
        XrReferenceSpaceType.XR_REFERENCE_SPACE_TYPE_LOCAL).1 = false →
      XR_FAILED (env.xrCreateReferenceSpace
        XrReferenceSpaceType.XR_REFERENCE_SPACE_TYPE_VIEW).1 = false →
      bi.type = XrStructureType.XR_TYPE_SESSION_BEGIN_INFO →
      bi.primaryViewConfigurationType =
        XrViewConfigurationType.XR_VIEW_CONFIGURATION_TYPE_PRIMARY_STEREO →
      env.pvr_getTimeSeconds < envB.pvr_getTimeSeconds →
      (xrCreateSession env s instanceHandle ci).state.m_sessionStateDirty = true ∧
      (xrCreateSession env s instanceHandle ci).state.m_sessionStateEventTime =
        env.pvr_getTimeSeconds ∧
      (xrCreateSession env s instanceHandle ci).state.m_sessionStartTime =
        env.pvr_getTimeSeconds ∧
      (xrBeginSession envB (xrCreateSession env s instanceHandle ci).state 1
          bi).2.m_sessionStateEventTime >
        (xrCreateSession env s instanceHandle ci).state.m_sessionStartTime) := by
  refine ⟨fun hb1 hb2 hb3 hb4 => ?_, fun he1 he2 => ?_, fun hx1 hx2 => ?_,
    fun b e h1 h2 h3 h4 h5 h6 h7 hscan hinit hr1 hr2 hbt hbc hclk => ?_⟩
  · have h := (C4_begin_checks_and_transition env s 1 bi).2.2.2.2.2
      hb1 hb2 rfl hb3 hb4
    rw [h]
    exact ⟨rfl, rfl⟩
  · have h := ((C5_end_requires_stopping env env s).2 he1 he2).1
    rw [h]
    exact ⟨rfl, rfl⟩
  · have h := (C6_request_exit_transitions env s).1 hx1 hx2
    rw [h]
    exact ⟨rfl, rfl⟩
  · obtain ⟨st, hcr, hcreated, hidle, hdirty, hevent, hstart, -, -, -⟩ :=
      xrCreateSession_success_shape env s instanceHandle ci
        h1 h2 h3 h4 h5 h6 h7 b e hscan hinit hr1 hr2
    rw [hcr]
    dsimp only
    have hbeg := (C4_begin_checks_and_transition envB st 1 bi).2.2.2.2.2
      hbt hcreated rfl hbc (Or.inl hidle)
    rw [hbeg]
    dsimp only
    rw [hevent, hstart]
    exact ⟨hdirty, rfl, rfl, hclk⟩

/-- C8 witness: Create at clock 5 then Begin at clock 7 produces a
state-event time strictly greater than the creation timestamp. -/
theorem C8_transitions_stamp_clock_witness :
    envAllOk.pvr_getTimeSeconds < envLater.pvr_getTimeSeconds ∧
    (xrBeginSession envLater
        (xrCreateSession envAllOk baseState 1
          { ciGood with next := [entryD3D11] }).state 1
        biGood).2.m_sessionStateEventTime >
      (xrCreateSession envAllOk baseState 1
        { ciGood with next := [entryD3D11] }).state.m_sessionStartTime :=
  ⟨by norm_num [envAllOk, envLater],
    ((C8_transitions_stamp_clock envAllOk envLater baseState 1
        { ciGood with next := [entryD3D11] } biGood).2.2.2
      Backend.d3d11 entryD3D11 rfl rfl rfl rfl rfl rfl rfl (by decide) rfl rfl rfl
      rfl rfl (by norm_num [envAllOk, envLater])).2.2.2⟩

/-- C9: the derived GPU frame-time override magnitude is
`multiplierPercent * 10 * frameDurationMs * 1000` microseconds (with the
`uint64` cast as floor); with a stored multiplier of 50 and a frame
duration of 11.11 ms it is exactly 5555000 µs; and settings derivation is
total, substituting the documented defaults when the store is empty. -/
theorem C9_settings_derivation (env : Env) (s : RuntimeState) :
    ((refreshSettings env s).m_gpuFrameTimeOverrideUs =
      (⌊(((env.getSetting "frame_time_override_multiplier").getD 0 : Nat) : Rat) * 10 *
          s.m_frameDuration * 1000⌋).toNat) ∧
    (env.getSetting "frame_time_override_multiplier" = some 50 →
      s.m_frameDuration = 1111 / 100 →
      (refreshSettings env s).m_gpuFrameTimeOverrideUs = 5555000) ∧
    ((∀ k, env.getSetting k = none) →
      (refreshSettings env s).m_joystickDeadzone = 2 / 100 ∧
      (refreshSettings env s).m_swapGripAimPoses = false ∧
      (refreshSettings env s).m_forcedInteractionProfile = none ∧
      (refreshSettings env s).m_gpuFrameTimeOverrideOffsetUs = 0 ∧
      (refreshSettings env s).m_gpuFrameTimeOverrideUs = 0 ∧
      (refreshSettings env s).m_gpuFrameTimeFilterLength = 5) := by
  refine ⟨rfl, fun hm hf => ?_, fun hnone => ?_⟩
  · show (⌊(((env.getSetting "frame_time_override_multiplier").getD 0 : Nat) : Rat) * 10 *
        s.m_frameDuration * 1000⌋).toNat = 5555000
    rw [hm, hf]
    norm_num
    rfl
  · constructor
    · show (((env.getSetting "joystick_deadzone").getD 2 : Nat) : Rat) / 100 = 2 / 100
      rw [hnone]
      norm_num
    refine ⟨?_, ?_, ?_, ?_, ?_⟩
    · show ((env.getSetting "swap_grip_aim_poses").getD 0 != 0) = false
      rw [hnone]
      rfl
    · show (if (env.getSetting "force_interaction_profile").getD 0 = 1 then
          some ForcedInteractionProfile.OculusTouchController
        else if (env.getSetting "force_interaction_profile").getD 0 = 2 then
          some ForcedInteractionProfile.MicrosoftMotionController
        else none) = none
      rw [hnone]
      rfl
    · show (env.getSetting "frame_time_override_offset").getD 0 = 0
      rw [hnone]
      rfl
    · show (⌊(((env.getSetting "frame_time_override_multiplier").getD 0 : Nat) : Rat) * 10 *
          s.m_frameDuration * 1000⌋).toNat = 0
      rw [hnone]
      norm_num
    · show (env.getSetting "frame_time_filter_length").getD 5 = 5
      rw [hnone]
      rfl

/-- C9 witness: with a stored multiplier of 50 % and the nominal 11.11 ms
frame duration, the derived override magnitude is 5555000 µs. -/
theorem C9_settings_derivation_witness :
    envMult50.getSetting "frame_time_override_multiplier" = some 50 ∧
    baseState.m_frameDuration = 1111 / 100 ∧
    (refreshSettings envMult50 baseState).m_gpuFrameTimeOverrideUs = 5555000 :=
  ⟨rfl, rfl, (C9_settings_derivation envMult50 baseState).2.1 rfl rfl⟩

/-- C10 counterexample: with a session created, a Begin call carrying a
malformed structure tag and the foreign handle value 2 returns
validation-failure, not handle-invalid, because the structure-tag check
precedes the handle check — so it is not true that Begin fails with
handle-invalid for every handle value other than 1. -/
theorem C10_session_handle_counterexample :
    (xrBeginSession envAllOk createdIdleState 2
      ⟨XrStructureType.XR_TYPE_UNKNOWN,
        XrViewConfigurationType.XR_VIEW_CONFIGURATION_TYPE_PRIMARY_STEREO⟩).1 =
      XrResult.XR_ERROR_VALIDATION_FAILURE ∧
    XrResult.XR_ERROR_VALIDATION_FAILURE ≠ XrResult.XR_ERROR_HANDLE_INVALID :=
  ⟨rfl, by decide⟩

/-- C10 (amended): the session handle is the fixed constant 1 — every
successful Create writes handle value 1; End, RequestExit and Destroy fail
with handle-invalid for any handle value other than 1 and whenever no
session is created, changing nothing; and Begin does so too provided its
request carries the session-begin structure tag (a malformed tag fails
earlier with validation-failure). -/
theorem C10_session_handle_constant (env : Env) (s : RuntimeState) :
    (∀ instanceHandle ci,
      (xrCreateSession env s instanceHandle ci).result =
        CallResult.ret XrResult.XR_SUCCESS →
      (xrCreateSession env s instanceHandle ci).sessionOut = some 1) ∧
    (∀ handle bi, bi.type = XrStructureType.XR_TYPE_SESSION_BEGIN_INFO →
      s.m_sessionCreated = false ∨ handle ≠ 1 →
      xrBeginSession env s handle bi = (XrResult.XR_ERROR_HANDLE_INVALID, s)) ∧
    (∀ handle, s.m_sessionCreated = false ∨ handle ≠ 1 →
      xrEndSession env s handle = (XrResult.XR_ERROR_HANDLE_INVALID, s)) ∧
    (∀ handle, s.m_sessionCreated = false ∨ handle ≠ 1 →
      xrRequestExitSession env s handle = (XrResult.XR_ERROR_HANDLE_INVALID, s)) ∧
    (∀ handle, s.m_sessionCreated = false ∨ handle ≠ 1 →
      xrDestroySession env s handle =
        ⟨CallResult.ret XrResult.XR_ERROR_HANDLE_INVALID, s, []⟩) := by
  refine ⟨fun instanceHandle ci h => ?_, fun handle bi h1 h2 => ?_,
    fun handle h => ?_, fun handle h => ?_, fun handle h => ?_⟩
  · unfold xrCreateSession at h ⊢
    by_cases c1 : ci.type ≠ XrStructureType.XR_TYPE_SESSION_CREATE_INFO
    · rw [if_pos c1] at h
      exact absurd h (by simp)
    rw [if_neg c1] at h ⊢
    by_cases c2 : s.m_instanceCreated = false ∨ instanceHandle ≠ 1
    · rw [if_pos c2] at h
      exact absurd h (by simp)
    rw [if_neg c2] at h ⊢
    by_cases c3 : s.m_systemCreated = false ∨ ci.systemId ≠ 1
    · rw [if_pos c3] at h
      exact absurd h (by simp)
    rw [if_neg c3] at h ⊢
    by_cases c4 : s.m_graphicsRequirementQueried = false
    · rw [if_pos c4] at h
      exact absurd h (by simp)
    rw [if_neg c4] at h ⊢
    by_cases c5 : s.m_sessionCreated = true
    · rw [if_pos c5] at h
      exact absurd h (by simp)
    rw [if_neg c5] at h ⊢
    cases hscan : scanGraphicsBindings env ci.next with
    | none =>
      rw [hscan] at h
      exact absurd h (by simp)
    | some be =>
      obtain ⟨b, e⟩ := be
      rw [hscan] at h
      dsimp only at h ⊢
      by_cases c6 : XR_FAILED (initializeBackend env b e) = true
      · rw [if_pos c6] at h
        dsimp only at h
        rw [CallResult.ret.injEq] at h
        rw [h] at c6
        exact absurd c6 (by decide)
      rw [if_neg c6] at h ⊢
      by_cases c7 : XR_FAILED (env.xrCreateReferenceSpace
          XrReferenceSpaceType.XR_REFERENCE_SPACE_TYPE_LOCAL).1 = true
      · rw [if_pos c7] at h
        exact absurd h (by simp)
      rw [if_neg c7] at h ⊢
      by_cases c8 : XR_FAILED (env.xrCreateReferenceSpace
          XrReferenceSpaceType.XR_REFERENCE_SPACE_TYPE_VIEW).1 = true
      · rw [if_pos c8] at h
        exact absurd h (by simp)
      rw [if_neg c8]
  · unfold xrBeginSession
    rw [if_neg (not_not_intro h1), if_pos h2]
  · unfold xrEndSession
    rw [if_pos h]
  · unfold xrRequestExitSession
    rw [if_pos h]
  · unfold xrDestroySession
    rw [if_pos h]

/-- C10 witness: Destroy and (well-tagged) Begin with the foreign handle 2
fail with handle-invalid and change nothing. -/
theorem C10_session_handle_constant_witness :
    xrDestroySession envAllOk createdIdleState 2 =
      ⟨CallResult.ret XrResult.XR_ERROR_HANDLE_INVALID, createdIdleState, []⟩ ∧
    xrBeginSession envAllOk createdIdleState 2 biGood =
      (XrResult.XR_ERROR_HANDLE_INVALID, createdIdleState) :=
  ⟨(C10_session_handle_constant envAllOk createdIdleState).2.2.2.2 2
      (Or.inr (by decide)),
    (C10_session_handle_constant envAllOk createdIdleState).2.1 2 biGood rfl
      (Or.inr (by decide))⟩
